import Mathlib

/-!
Shallow embedding of `src/src/main.tsx` of nexus-desktop: the bootstrap
module (lines 1-23), the `App` component's readiness controller (the
`useEffect` at lines 37-95), the render output (lines 97-133), and a
spec-modelled `checkNexusStatus` (the store `useNexusStore` is not part of
the supplied source; only its call sites are).

Time is in milliseconds (`Nat`). The JavaScript event loop is
single-threaded, so we model each asynchronous operation by the absolute
time at which it settles, and each timer by its firing time. Synchronous
work takes zero time.
-/

namespace NexusDesktop

/-- Backend connectivity status (`backend.status` in the store). Values per
the spec data model: Unknown, Connected, Disconnected, Error. The `App`
code itself only reads `disconnected` and `error` (line 110). -/
inductive BackendStatus
  | unknown
  | connected
  | disconnected
  | error
deriving DecidableEq, Repr

/-- One observable action of the bootstrap module (`main.tsx` lines 1-23).
Interpolated values in the log messages are elided. -/
inductive BootAction
  | consoleLog (msg : String)
  | consoleError (msg : String)
  | createRootAndRender
deriving DecidableEq, BEq, Repr

/-- `main.tsx` lines 1-23: emit the module-load log lines, locate
`document.getElementById` for the root surface; if present, create a React
root and render the `App` tree once, then log; if absent, report one error
and do nothing further. -/
def bootstrap (rootPresent : Bool) : List BootAction :=
  [BootAction.consoleLog "[main.tsx] Loading main.tsx",
   BootAction.consoleLog "[main.tsx] Imports complete",
   BootAction.consoleLog "[main.tsx] Tauri available:",
   BootAction.consoleLog "[main.tsx] Root element:"] ++
  (match rootPresent with
   | true =>
     [BootAction.createRootAndRender,
      BootAction.consoleLog "[main.tsx] React render initiated"]
   | false =>
     [BootAction.consoleError "[main.tsx] Root element not found!"])

/-- Settlement behaviour of one asynchronous call: it resolves after `t`
ms, rejects after `t` ms, or never settles at all. -/
inductive QueryOutcome
  | resolves (t : Nat)
  | rejects (t : Nat)
  | pending
deriving DecidableEq, Repr

/-- Environment of one run of the `App` effect: whether the Tauri bridge
global is present at probe time (line 52), how the listener-registration
call behaves (line 60, time relative to its invocation), how the init
sequence's status query behaves (line 65, relative time), and how the
`k`-th recurring poll's query behaves (lines 88-92, relative time). -/
structure RunEnv where
  tauriAvailable : Bool
  listeners : QueryOutcome
  initQuery : QueryOutcome
  pollQuery : Nat → QueryOutcome

/-- Modelled from the spec: `checkNexusStatus` lives in
`store/useNexusStore`, which is missing from the supplied source. Per the
spec, one call performs one backend status query and updates BackendStatus
on completion: success sets the connected value, failure sets a
disconnected/error value (we use `error`); a query that never settles never
completes and performs no update. The result is the update as
(delay from invocation, new status), or `none` when no update lands. -/
def queryStatusUpdate : QueryOutcome → Option (Nat × BackendStatus)
  | QueryOutcome.resolves t => some (t, BackendStatus.connected)
  | QueryOutcome.rejects t => some (t, BackendStatus.error)
  | QueryOutcome.pending => none

/-- Absolute time at which the `init` async function (lines 47-83)
completes, i.e. when its `finally` block (lines 78-82) runs; `none` when
`init` never completes because an awaited operation never settles.
* Tauri absent (lines 52-57): the branch runs synchronously at time 0 and
  returns; the `finally` block still runs, at time 0.
* Tauri present: `await initializeTauriListeners()` (line 60). A rejection
  is caught by the outer catch (line 76), then `finally` runs; a hang means
  `init` never completes; a resolution at `tl` reaches the inner block
  (lines 64-75), which races `checkNexusStatus()` against a fresh 2000 ms
  timer. A settled race (either way) or a timeout is handled by the inner
  catch, so `finally` runs at `tl + min tq 2000` (at `tl + 2000` when the
  query never settles). -/
def initCompletion (e : RunEnv) : Option Nat :=
  match e.tauriAvailable, e.listeners with
  | false, _ => some 0
  | true, QueryOutcome.rejects t => some t
  | true, QueryOutcome.pending => none
  | true, QueryOutcome.resolves tl =>
    match e.initQuery with
    | QueryOutcome.resolves tq => some (tl + min tq 2000)
    | QueryOutcome.rejects tq => some (tl + min tq 2000)
    | QueryOutcome.pending => some (tl + 2000)

/-- The `setIsInitializing(false)` call of the capability-absent branch
(line 54): performed at time 0 iff the Tauri global is absent. -/
def capAbsentSetter (e : RunEnv) : List (Nat × Bool) :=
  match e.tauriAvailable with
  | true => []
  | false => [(0, false)]

/-- The `setIsInitializing(false)` call of the `finally` block (line 81):
performed whenever `init` completes, at its completion time. -/
def finallySetter (e : RunEnv) : List (Nat × Bool) :=
  match initCompletion e with
  | some t => [(t, false)]
  | none => []

/-- Whether the `forceShowUI` deadline timer (lines 41-44, duration
3000 ms) fires: it fires at 3000 unless `clearTimeout` ran strictly
earlier. `clearTimeout(forceShowUI)` runs at the capability-absent branch
(line 55) or at the `finally` block (line 80), both at `initCompletion`. -/
def deadlineFires (e : RunEnv) : Bool :=
  match initCompletion e with
  | some t => decide (3000 ≤ t)
  | none => true

/-- The `setIsInitializing(false)` call made by the deadline timer's
callback (line 43): unconditional, at time 3000, whenever it fires. -/
def deadlineSetter (e : RunEnv) : List (Nat × Bool) :=
  match deadlineFires e with
  | true => [(3000, false)]
  | false => []

/-- Every call to `setIsInitializing` made during one run of the effect,
as (time, value written). The initial state (line 32) is `true`; no code
path ever calls the setter with `true`. Note this list does not depend on
any teardown time: the cleanup (line 94) clears only the poll interval,
never the deadline timer nor the in-flight `init` work. -/
def setterCalls (e : RunEnv) : List (Nat × Bool) :=
  capAbsentSetter e ++ finallySetter e ++ deadlineSetter e

/-- The first time the setter is called: the readiness state flips from
Initializing to Ready here. -/
def readyTime (e : RunEnv) : Nat :=
  match initCompletion e with
  | some t => min t 3000
  | none => 3000

/-- `isInitializing` at time `t`: initially `true` (line 32); every
recorded setter call writes `false`, so the state at `t` is `true` iff no
call has happened at a time `≤ t`. -/
def isInitializingAt (e : RunEnv) (t : Nat) : Bool :=
  (setterCalls e).all (fun c => decide (t < c.1))

/-- Firing times of the `setInterval` poll (lines 88-92): the interval is
armed when the effect runs (time 0) with period 10000 ms, and is cancelled
at time `cancel` by the effect cleanup (line 94), after which no firing
occurs. -/
def pollFires (cancel : Option Nat) (t : Nat) : Bool :=
  decide (0 < t) && decide (t % 10000 = 0) &&
    match cancel with
    | none => true
    | some T => decide (t < T)

/-- Time of the init sequence's `checkNexusStatus()` invocation (line 65):
it is reached only when the Tauri global is present and the listener
registration resolved (a listener rejection jumps to the outer catch, past
the status-check block; the capability-absent branch returns first). -/
def initQueryAttempt (e : RunEnv) : Option Nat :=
  match e.tauriAvailable, e.listeners with
  | true, QueryOutcome.resolves tl => some tl
  | _, _ => none

/-- Whether some `checkNexusStatus()` invocation happens at time `t` in a
run with teardown at `cancel`: either the init sequence's call or a poll
firing. -/
def queryAttemptedAt (e : RunEnv) (cancel : Option Nat) (t : Nat) : Bool :=
  decide (initQueryAttempt e = some t) || pollFires cancel t

/-- BackendStatus update produced by the init sequence's query, as
(absolute completion time, new status). The update lands even when the
2000 ms race was lost: readiness and status are decoupled, a late result
still updates the store. -/
def initUpdate (e : RunEnv) : Option (Nat × BackendStatus) :=
  match initQueryAttempt e with
  | some tl => Option.map (fun p => (tl + p.1, p.2)) (queryStatusUpdate e.initQuery)
  | none => none

/-- BackendStatus updates from poll invocations completed by time `t`. The
poll firing at `10000 * (k + 1)` invokes query `k + 1`, whose update lands
at firing time plus the query's settle delay. -/
def pollUpdates (e : RunEnv) (cancel : Option Nat) (t : Nat) :
    List (Nat × BackendStatus) :=
  (List.range (t / 10000 + 1)).filterMap (fun k =>
    match pollFires cancel (10000 * (k + 1)),
          queryStatusUpdate (e.pollQuery (k + 1)) with
    | true, some p =>
      if 10000 * (k + 1) + p.1 ≤ t then
        some (10000 * (k + 1) + p.1, p.2)
      else none
    | _, _ => none)

/-- All BackendStatus updates that have landed by time `t`. -/
def statusUpdatesBy (e : RunEnv) (cancel : Option Nat) (t : Nat) :
    List (Nat × BackendStatus) :=
  (match initUpdate e with
   | some u => if u.1 ≤ t then [u] else []
   | none => []) ++ pollUpdates e cancel t

/-- `backend.status` at time `t`: the status written by the latest landed
update, `unknown` before any update completes. -/
def backendStatusAt (e : RunEnv) (cancel : Option Nat) (t : Nat) :
    BackendStatus :=
  ((statusUpdatesBy e cancel t).foldl
    (fun acc u => if acc.1 ≤ u.1 then u else acc)
    (0, BackendStatus.unknown)).2

/-- What `App` renders (lines 97-133): while `isInitializing` only the
spinner (early return, lines 97-107); afterwards the main container with
`showConnectionWarning` computed at line 110 deciding the banner, and
`MainLayout` always present (line 131). -/
structure View where
  spinner : Bool
  banner : Bool
  mainLayout : Bool
deriving DecidableEq, Repr

/-- Render function of `App`, from lines 97-133. -/
def renderApp (isInit : Bool) (status : BackendStatus) : View :=
  match isInit with
  | true => { spinner := true, banner := false, mainLayout := false }
  | false =>
    { spinner := false,
      banner := status == BackendStatus.disconnected
                  || status == BackendStatus.error,
      mainLayout := true }

/-- How a call site of `checkNexusStatus` handles a rejected promise. -/
inductive RejectionHandling
  | catchLogged
  | noHandler
deriving DecidableEq, Repr

/-- Lines 64-75: the init sequence's call is awaited (through the race)
inside the inner try, whose catch logs the failure. -/
def initStatusCallSite : RejectionHandling := RejectionHandling.catchLogged

/-- Lines 88-92: the poll invokes `checkNexusStatus().catch(err => ...)`,
logging the failure at the call boundary. -/
def pollCallSite : RejectionHandling := RejectionHandling.catchLogged

/-- Line 123: the banner's retry button invokes `checkNexusStatus()` bare
inside the onClick arrow function - no handler is attached there. -/
def retryCallSite : RejectionHandling := RejectionHandling.noHandler

/-- A rejecting `checkNexusStatus` call becomes an unhandled fault iff its
call site attached no handler. -/
def unhandledFault (h : RejectionHandling) (callRejects : Bool) : Bool :=
  callRejects && (h == RejectionHandling.noHandler)

/-- Timers owned by the `App` effect. -/
inductive TimerId
  | forceShowUI
  | pollInterval
deriving DecidableEq, Repr

/-- The effect's cleanup (line 94) is `() => clearInterval(interval)`: it
clears the poll interval and nothing else. -/
def effectCleanup : List TimerId := [TimerId.pollInterval]

/-- Concrete run: Tauri present, listeners resolve immediately, the init
query succeeds at 500 ms, every poll query hangs. -/
def envHappy : RunEnv :=
  ⟨true, QueryOutcome.resolves 0, QueryOutcome.resolves 500,
   fun _ => QueryOutcome.pending⟩

/-- Concrete run: Tauri absent; every poll query fails immediately. -/
def envNoTauri : RunEnv :=
  ⟨false, QueryOutcome.pending, QueryOutcome.pending,
   fun _ => QueryOutcome.rejects 0⟩

/-- Concrete run: Tauri present, listeners resolve immediately, the init
query never settles, every poll query hangs. -/
def envStuckQuery : RunEnv :=
  ⟨true, QueryOutcome.resolves 0, QueryOutcome.pending,
   fun _ => QueryOutcome.pending⟩

/-- Concrete run: Tauri present, the listener registration rejects
immediately; the init query would have succeeded at 100 ms. -/
def envListenersThrow : RunEnv :=
  ⟨true, QueryOutcome.rejects 0, QueryOutcome.resolves 100,
   fun _ => QueryOutcome.pending⟩

/-- Concrete run: Tauri present but the listener registration hangs
forever, so `init` never completes and only the deadline frees the UI. -/
def envHang : RunEnv :=
  ⟨true, QueryOutcome.pending, QueryOutcome.pending,
   fun _ => QueryOutcome.pending⟩

/-- Any element of `capAbsentSetter` means the Tauri global was absent and
the call is (0, false). -/
theorem mem_capAbsentSetter {e : RunEnv} {c : Nat × Bool}
    (h : c ∈ capAbsentSetter e) :
    e.tauriAvailable = false ∧ c = (0, false) := by
  unfold capAbsentSetter at h
  cases ht : e.tauriAvailable
  · rw [ht] at h
    simp at h
    exact ⟨rfl, h⟩
  · rw [ht] at h
    simp at h

/-- Any element of `finallySetter` is the `finally` call at `init`'s
completion time, with value false. -/
theorem mem_finallySetter {e : RunEnv} {c : Nat × Bool}
    (h : c ∈ finallySetter e) :
    initCompletion e = some c.1 ∧ c.2 = false := by
  unfold finallySetter at h
  cases hic : initCompletion e with
  | none =>
    rw [hic] at h
    simp at h
  | some t =>
    rw [hic] at h
    simp at h
    subst h
    exact ⟨rfl, rfl⟩

/-- Any element of `deadlineSetter` is the deadline callback's call at
3000, with value false, and the deadline indeed fires. -/
theorem mem_deadlineSetter {e : RunEnv} {c : Nat × Bool}
    (h : c ∈ deadlineSetter e) :
    deadlineFires e = true ∧ c = (3000, false) := by
  unfold deadlineSetter at h
  cases hd : deadlineFires e
  · rw [hd] at h
    simp at h
  · rw [hd] at h
    simp at h
    exact ⟨rfl, h⟩

/-- Every recorded setter call writes `false`: no code path ever writes
`true` after the initial state. -/
theorem setterCalls_sets_false (e : RunEnv) :
    ∀ c ∈ setterCalls e, c.2 = false := by
  intro c hc
  unfold setterCalls at hc
  rcases List.mem_append.mp hc with hc1 | hc3
  · rcases List.mem_append.mp hc1 with h1 | h2
    · rw [(mem_capAbsentSetter h1).2]
    · exact (mem_finallySetter h2).2
  · rw [(mem_deadlineSetter hc3).2]

/-- The readiness flip happens no later than the 3000 ms deadline. -/
theorem readyTime_le_3000 (e : RunEnv) : readyTime e ≤ 3000 := by
  unfold readyTime
  cases initCompletion e with
  | none => exact Nat.le_refl 3000
  | some t => exact Nat.min_le_right t 3000

/-- When the Tauri global is absent, `init` completes at time 0. -/
theorem initCompletion_no_tauri {e : RunEnv} (h : e.tauriAvailable = false) :
    initCompletion e = some 0 := by
  unfold initCompletion
  rw [h]

/-- If the deadline fires, its (3000, false) call is recorded. -/
theorem deadline_mem (e : RunEnv) (h : deadlineFires e = true) :
    ((3000 : Nat), false) ∈ setterCalls e := by
  unfold setterCalls deadlineSetter
  rw [h]
  simp

/-- If `init` completes at `t`, the `finally` call at `t` is recorded. -/
theorem finally_mem (e : RunEnv) (t : Nat) (h : initCompletion e = some t) :
    (t, false) ∈ setterCalls e := by
  unfold setterCalls finallySetter
  rw [h]
  simp

/-- `readyTime` is a lower bound of all setter call times. -/
theorem readyTime_le_call (e : RunEnv) :
    ∀ c ∈ setterCalls e, readyTime e ≤ c.1 := by
  intro c hc
  unfold setterCalls at hc
  rcases List.mem_append.mp hc with hc1 | hc3
  · rcases List.mem_append.mp hc1 with h1 | h2
    · obtain ⟨ht, hceq⟩ := mem_capAbsentSetter h1
      have hic := initCompletion_no_tauri ht
      unfold readyTime
      rw [hic, hceq]
      simp
    · obtain ⟨hic, _⟩ := mem_finallySetter h2
      unfold readyTime
      rw [hic]
      exact Nat.min_le_left _ _
  · obtain ⟨_, hceq⟩ := mem_deadlineSetter hc3
    rw [hceq]
    exact readyTime_le_3000 e

/-- Some setter call happens exactly at `readyTime`. -/
theorem readyTime_mem (e : RunEnv) :
    ∃ c ∈ setterCalls e, c.1 = readyTime e := by
  cases hic : initCompletion e with
  | none =>
    refine ⟨(3000, false), deadline_mem e ?_, ?_⟩
    · unfold deadlineFires
      rw [hic]
    · unfold readyTime
      rw [hic]
  | some t =>
    by_cases hlt : t < 3000
    · refine ⟨(t, false), finally_mem e t hic, ?_⟩
      unfold readyTime
      rw [hic]
      show t = min t 3000
      omega
    · refine ⟨(3000, false), deadline_mem e ?_, ?_⟩
      · unfold deadlineFires
        rw [hic]
        exact decide_eq_true (by omega)
      · unfold readyTime
        rw [hic]
        show (3000 : Nat) = min t 3000
        omega

/-- The readiness state over time is the threshold function of
`readyTime`: true strictly before it, false from it on. So the
Initializing to Ready transition happens exactly once, at `readyTime`. -/
theorem isInitializingAt_eq (e : RunEnv) (t : Nat) :
    isInitializingAt e t = decide (t < readyTime e) := by
  by_cases h : t < readyTime e
  · unfold isInitializingAt
    rw [decide_eq_true h]
    apply List.all_eq_true.mpr
    intro c hc
    exact decide_eq_true (lt_of_lt_of_le h (readyTime_le_call e c hc))
  · unfold isInitializingAt
    rw [decide_eq_false h]
    apply List.all_eq_false.mpr
    obtain ⟨c, hc, hceq⟩ := readyTime_mem e
    refine ⟨c, hc, ?_⟩
    show ¬ decide (t < c.1) = true
    simp only [decide_eq_true_eq]
    omega

/-- Before 10000 ms no poll update has landed. -/
theorem pollUpdates_eq_nil_of_lt (e : RunEnv) (cancel : Option Nat)
    (t : Nat) (ht : t < 10000) : pollUpdates e cancel t = [] := by
  unfold pollUpdates
  rw [Nat.div_eq_of_lt ht]
  rw [show List.range (0 + 1) = [0] from rfl]
  rw [List.filterMap_cons, List.filterMap_nil]
  cases hp : pollFires cancel (10000 * (0 + 1)) with
  | false =>
    cases hq : queryStatusUpdate (e.pollQuery (0 + 1)) <;> simp [hp, hq]
  | true =>
    cases hq : queryStatusUpdate (e.pollQuery (0 + 1)) with
    | none => simp [hp, hq]
    | some p =>
      have hc : ¬ (10000 * (0 + 1) + p.1 ≤ t) := by omega
      simp [hp, hq, hc]

/-- If the init sequence produced no status update, the status before the
first poll can complete is still `unknown`. -/
theorem backendStatus_unknown_early (e : RunEnv) (cancel : Option Nat)
    (t : Nat) (hup : initUpdate e = none) (ht : t < 10000) :
    backendStatusAt e cancel t = BackendStatus.unknown := by
  unfold backendStatusAt statusUpdatesBy
  rw [hup, pollUpdates_eq_nil_of_lt e cancel t ht]
  rfl

/-- Every positive multiple of 10000 is an uncancelled poll firing. -/
theorem pollFires_none_mul (k : Nat) (hk : 1 ≤ k) :
    pollFires none (10000 * k) = true := by
  unfold pollFires
  have h1 : 0 < 10000 * k := by omega
  have h2 : 10000 * k % 10000 = 0 := Nat.mul_mod_right 10000 k
  rw [decide_eq_true h1, decide_eq_true h2]
  rfl

/-- C1: in every run of the `App` effect, every recorded
`setIsInitializing` call writes `false` (no operation ever sets the flag
back to `true`), the readiness state is the one-way threshold function of
`readyTime` (true strictly before it, false from it on - so the
Initializing to Ready transition happens exactly once, at `readyTime`),
and the transition happens within the 3000 ms deadline duration. -/
theorem c1_readiness_one_way_within_deadline (e : RunEnv) :
    (∀ c ∈ setterCalls e, c.2 = false) ∧
    (∀ t, isInitializingAt e t = decide (t < readyTime e)) ∧
    readyTime e ≤ 3000 :=
  ⟨setterCalls_sets_false e, fun t => isInitializingAt_eq e t,
   readyTime_le_3000 e⟩

/-- Witness for C1 at a concrete run (happy path). -/
theorem c1_witness :
    (∀ c ∈ setterCalls envHappy, c.2 = false) ∧
    (∀ t, isInitializingAt envHappy t = decide (t < readyTime envHappy)) ∧
    readyTime envHappy ≤ 3000 :=
  c1_readiness_one_way_within_deadline envHappy

/-- C2: the deadline timer has fixed duration 3000 ms and whenever it
fires its callback unconditionally records a `false` setter call at time
3000; in a run where `init` never completes it certainly fires and
readiness is reached exactly at the deadline; in every run the
Initializing state is left no later than 3000 ms. -/
theorem c2_deadline_backstop (e : RunEnv) :
    (deadlineFires e = true → ((3000 : Nat), false) ∈ setterCalls e) ∧
    (initCompletion e = none → deadlineFires e = true ∧ readyTime e = 3000) ∧
    readyTime e ≤ 3000 := by
  refine ⟨fun h => deadline_mem e h, fun h => ⟨?_, ?_⟩, readyTime_le_3000 e⟩
  · unfold deadlineFires
    rw [h]
  · unfold readyTime
    rw [h]

/-- Witness for C2 at a run whose `init` hangs forever: the deadline fires
and its recorded call is present. -/
theorem c2_witness :
    ((3000 : Nat), false) ∈ setterCalls envHang ∧
    deadlineFires envHang = true ∧
    readyTime envHang = 3000 :=
  ⟨(c2_deadline_backstop envHang).1 (by decide),
   ((c2_deadline_backstop envHang).2.1 rfl).1,
   ((c2_deadline_backstop envHang).2.1 rfl).2⟩

/-- C3 counterexample: in a run with the capability flag false, a backend
status query is still attempted at t = 10000 (the first firing of the
unconditionally armed poll interval), and since that query fails,
BackendStatus does not remain Unknown either - refuting "no backend status
query is ever attempted in that run". -/
theorem c3_counterexample :
    envNoTauri.tauriAvailable = false ∧
    queryAttemptedAt envNoTauri none 10000 = true ∧
    backendStatusAt envNoTauri none 10000 = BackendStatus.error := by
  decide

/-- C3 amended: with the capability flag false, the init sequence
immediately (time 0) sets readiness, the deadline timer is cancelled and
never fires, init attempts no status query and produces no status update,
and BackendStatus stays Unknown before the first poll can complete
(t < 10000); however, the poll interval is armed regardless and a status
query is attempted at every multiple of 10000 ms. -/
theorem c3_amended_no_tauri (e : RunEnv) (h : e.tauriAvailable = false) :
    readyTime e = 0 ∧
    deadlineFires e = false ∧
    initQueryAttempt e = none ∧
    initUpdate e = none ∧
    (∀ t, t < 10000 → backendStatusAt e none t = BackendStatus.unknown) ∧
    (∀ k, 1 ≤ k → queryAttemptedAt e none (10000 * k) = true) := by
  have hic : initCompletion e = some 0 := initCompletion_no_tauri h
  have hqa : initQueryAttempt e = none := by
    unfold initQueryAttempt
    rw [h]
  have hup : initUpdate e = none := by
    unfold initUpdate
    rw [hqa]
  refine ⟨?_, ?_, hqa, hup, ?_, ?_⟩
  · unfold readyTime
    rw [hic]
    decide
  · unfold deadlineFires
    rw [hic]
    decide
  · intro t ht
    exact backendStatus_unknown_early e none t hup ht
  · intro k hk
    unfold queryAttemptedAt
    rw [pollFires_none_mul k hk]
    exact Bool.or_true _

/-- Witness for C3's amended statement at a concrete capability-absent
run. -/
theorem c3_witness :
    readyTime envNoTauri = 0 ∧
    deadlineFires envNoTauri = false ∧
    initQueryAttempt envNoTauri = none ∧
    initUpdate envNoTauri = none ∧
    (∀ t, t < 10000 →
      backendStatusAt envNoTauri none t = BackendStatus.unknown) ∧
    (∀ k, 1 ≤ k → queryAttemptedAt envNoTauri none (10000 * k) = true) :=
  c3_amended_no_tauri envNoTauri rfl

/-- C4 counterexample: capability flag true, listeners resolve at 0, the
init status query never settles. Readiness is reached at the 2000 ms
secondary timeout as claimed, but BackendStatus at that moment is still
Unknown - not a disconnected or error value - because the timeout path
(inner catch, lines 72-75) only logs and never updates the store. -/
theorem c4_counterexample :
    readyTime envStuckQuery = 2000 ∧
    backendStatusAt envStuckQuery none 2000 = BackendStatus.unknown ∧
    backendStatusAt envStuckQuery none 2000 ≠ BackendStatus.disconnected ∧
    backendStatusAt envStuckQuery none 2000 ≠ BackendStatus.error := by
  decide

/-- C4 amended: when the capability flag is true and the listeners resolve
at `tl`, a never-settling init query still yields readiness at the
secondary timeout `tl + 2000` (capped by the 3000 ms deadline), but
produces no status update, so BackendStatus remains Unknown until some
poll query completes (in particular through time < 10000); a query that
does settle - even after the race is lost - updates BackendStatus to
`connected` on success and `error` on failure. -/
theorem c4_amended_timeout_keeps_unknown (e : RunEnv) (tl : Nat)
    (h1 : e.tauriAvailable = true)
    (h2 : e.listeners = QueryOutcome.resolves tl) :
    (e.initQuery = QueryOutcome.pending →
      readyTime e = min (tl + 2000) 3000 ∧
      initUpdate e = none ∧
      (∀ t, t < 10000 → backendStatusAt e none t = BackendStatus.unknown)) ∧
    (∀ tq, e.initQuery = QueryOutcome.rejects tq →
      readyTime e = min (tl + min tq 2000) 3000 ∧
      initUpdate e = some (tl + tq, BackendStatus.error)) ∧
    (∀ tq, e.initQuery = QueryOutcome.resolves tq →
      readyTime e = min (tl + min tq 2000) 3000 ∧
      initUpdate e = some (tl + tq, BackendStatus.connected)) := by
  have hqa : initQueryAttempt e = some tl := by
    unfold initQueryAttempt
    rw [h1, h2]
  refine ⟨fun hq => ?_, fun tq hq => ?_, fun tq hq => ?_⟩
  · have hic : initCompletion e = some (tl + 2000) := by
      unfold initCompletion
      rw [h1, h2, hq]
    have hup : initUpdate e = none := by
      unfold initUpdate
      rw [hqa, hq]
      rfl
    refine ⟨?_, hup, fun t ht => backendStatus_unknown_early e none t hup ht⟩
    unfold readyTime
    rw [hic]
  · have hic : initCompletion e = some (tl + min tq 2000) := by
      unfold initCompletion
      rw [h1, h2, hq]
    constructor
    · unfold readyTime
      rw [hic]
    · unfold initUpdate
      rw [hqa, hq]
      rfl
  · have hic : initCompletion e = some (tl + min tq 2000) := by
      unfold initCompletion
      rw [h1, h2, hq]
    constructor
    · unfold readyTime
      rw [hic]
    · unfold initUpdate
      rw [hqa, hq]
      rfl

/-- Witness for C4's amended statement at the concrete stuck-query run. -/
theorem c4_witness :
    (envStuckQuery.initQuery = QueryOutcome.pending →
      readyTime envStuckQuery = min (0 + 2000) 3000 ∧
      initUpdate envStuckQuery = none ∧
      (∀ t, t < 10000 →
        backendStatusAt envStuckQuery none t = BackendStatus.unknown)) ∧
    (∀ tq, envStuckQuery.initQuery = QueryOutcome.rejects tq →
      readyTime envStuckQuery = min (0 + min tq 2000) 3000 ∧
      initUpdate envStuckQuery = some (0 + tq, BackendStatus.error)) ∧
    (∀ tq, envStuckQuery.initQuery = QueryOutcome.resolves tq →
      readyTime envStuckQuery = min (0 + min tq 2000) 3000 ∧
      initUpdate envStuckQuery = some (0 + tq, BackendStatus.connected)) :=
  c4_amended_timeout_keeps_unknown envStuckQuery 0 rfl rfl

/-- C5 counterexample: the listener registration rejects at time 0 while
the status query would have succeeded at 100 ms; `init` still completes
(the error is caught) at time 0, but without ever attempting the status
check - refuting "the initialization sequence continues to perform the
backend status check". -/
theorem c5_counterexample :
    initQueryAttempt envListenersThrow = none ∧
    initCompletion envListenersThrow = some 0 ∧
    readyTime envListenersThrow = 0 := by
  decide

/-- C5 amended: when the listener registration rejects at `tl`, the error
is caught by the outer catch and swallowed - `init` still completes at
`tl` and readiness is reached via the `finally` block - and BackendStatus
is unaffected (no update lands from init, status stays Unknown before
polls); but the thrown error skips the status-check block entirely: no
backend status check is attempted by the init sequence. -/
theorem c5_amended_listener_error_skips_check (e : RunEnv) (tl : Nat)
    (h1 : e.tauriAvailable = true)
    (h2 : e.listeners = QueryOutcome.rejects tl) :
    initCompletion e = some tl ∧
    readyTime e = min tl 3000 ∧
    initQueryAttempt e = none ∧
    initUpdate e = none ∧
    (∀ t, t < 10000 → backendStatusAt e none t = BackendStatus.unknown) := by
  have hic : initCompletion e = some tl := by
    unfold initCompletion
    rw [h1, h2]
  have hqa : initQueryAttempt e = none := by
    unfold initQueryAttempt
    rw [h1, h2]
  have hup : initUpdate e = none := by
    unfold initUpdate
    rw [hqa]
  refine ⟨hic, ?_, hqa, hup,
    fun t ht => backendStatus_unknown_early e none t hup ht⟩
  unfold readyTime
  rw [hic]

/-- Witness for C5's amended statement at the concrete listener-throw
run. -/
theorem c5_witness :
    initCompletion envListenersThrow = some 0 ∧
    readyTime envListenersThrow = min 0 3000 ∧
    initQueryAttempt envListenersThrow = none ∧
    initUpdate envListenersThrow = none ∧
    (∀ t, t < 10000 →
      backendStatusAt envListenersThrow none t = BackendStatus.unknown) :=
  c5_amended_listener_error_skips_check envListenersThrow 0 rfl rfl

/-- C6 counterexample: the banner's manual retry call site attaches no
rejection handler (line 123 invokes `checkNexusStatus()` bare), so a
rejecting call there is an unhandled fault - refuting "every invocation
... has its failures caught and logged at the call boundary". The poll
call site, by contrast, does catch. -/
theorem c6_counterexample :
    retryCallSite = RejectionHandling.noHandler ∧
    unhandledFault retryCallSite true = true ∧
    unhandledFault pollCallSite true = false := by
  decide

/-- C6 amended: the init sequence's call and the recurring poll's call
catch a rejection at the call boundary (no rejecting call there becomes an
unhandled fault), but the banner's retry call site has no handler, so a
rejection there is an unhandled fault exactly when the call rejects;
whether it ever rejects depends on `checkNexusStatus` itself (store code
not in the supplied source, which the spec models as never propagating
failures). -/
theorem c6_amended_boundaries (r : Bool) :
    unhandledFault initStatusCallSite r = false ∧
    unhandledFault pollCallSite r = false ∧
    unhandledFault retryCallSite r = r := by
  cases r <;> decide

/-- Witness for C6's amended statement at a rejecting call. -/
theorem c6_witness :
    unhandledFault initStatusCallSite true = false ∧
    unhandledFault pollCallSite true = false ∧
    unhandledFault retryCallSite true = true :=
  c6_amended_boundaries true

/-- C7: every firing of the recurring poll happens strictly after
readiness is reached (the first firing is at 10000 ms while readiness
arrives by 3000 ms), lands on a multiple of the fixed 10000 ms period,
counts as a `checkNexusStatus` invocation, and is strictly before the
cancellation time whenever the cleanup ran; without cancellation the poll
fires at every multiple of 10000 ms indefinitely. -/
theorem c7_poll_after_ready_until_cancel (e : RunEnv) (cancel : Option Nat) :
    (∀ t, pollFires cancel t = true →
      readyTime e < t ∧ 10000 ≤ t ∧ t % 10000 = 0 ∧
      queryAttemptedAt e cancel t = true ∧
      (∀ T, cancel = some T → t < T)) ∧
    (∀ k, 1 ≤ k → pollFires none (10000 * k) = true) := by
  constructor
  · intro t ht
    have hq : queryAttemptedAt e cancel t = true := by
      unfold queryAttemptedAt
      rw [ht]
      exact Bool.or_true _
    have hb : 0 < t ∧ t % 10000 = 0 ∧ (∀ T, cancel = some T → t < T) := by
      unfold pollFires at ht
      cases cancel with
      | none =>
        simp only [Bool.and_eq_true, decide_eq_true_eq] at ht
        refine ⟨ht.1.1, ht.1.2, ?_⟩
        intro T hT
        simp at hT
      | some T =>
        simp only [Bool.and_eq_true, decide_eq_true_eq] at ht
        refine ⟨ht.1.1, ht.1.2, ?_⟩
        intro T2 hT2
        cases hT2
        exact ht.2
    have h3 := readyTime_le_3000 e
    refine ⟨by omega, by omega, hb.2.1, hq, hb.2.2⟩
  · exact pollFires_none_mul

/-- Witness for C7 at a concrete run with teardown at 25000 ms. -/
theorem c7_witness :
    (∀ t, pollFires (some 25000) t = true →
      readyTime envHappy < t ∧ 10000 ≤ t ∧ t % 10000 = 0 ∧
      queryAttemptedAt envHappy (some 25000) t = true ∧
      (∀ T, (some 25000 : Option Nat) = some T → t < T)) ∧
    (∀ k, 1 ≤ k → pollFires none (10000 * k) = true) :=
  c7_poll_after_ready_until_cancel envHappy (some 25000)

/-- C8: the bootstrap locates the root surface once; when it is present it
performs exactly one render activation and no error diagnostic; when it is
absent it performs no render, emits exactly one error diagnostic, and that
diagnostic is the final action taken (nothing follows it). -/
theorem c8_bootstrap_render_once_or_fail_fast (rootPresent : Bool) :
    ((bootstrap rootPresent).count BootAction.createRootAndRender
      = if rootPresent then 1 else 0) ∧
    ((bootstrap rootPresent).count
        (BootAction.consoleError "[main.tsx] Root element not found!")
      = if rootPresent then 0 else 1) ∧
    (rootPresent = false →
      (bootstrap rootPresent).getLast? =
        some (BootAction.consoleError "[main.tsx] Root element not found!")) := by
  cases rootPresent <;> decide

/-- Witness for C8 with the root element absent. -/
theorem c8_witness :
    ((bootstrap false).count BootAction.createRootAndRender
      = if false then 1 else 0) ∧
    ((bootstrap false).count
        (BootAction.consoleError "[main.tsx] Root element not found!")
      = if false then 0 else 1) ∧
    (false = false →
      (bootstrap false).getLast? =
        some (BootAction.consoleError "[main.tsx] Root element not found!")) :=
  c8_bootstrap_render_once_or_fail_fast false

/-- C9: once readiness is reached (isInitializing false), the warning
banner is rendered iff BackendStatus is `disconnected` or `error` (not
when `unknown` or `connected`), and the main layout is rendered alongside
in every case with the spinner gone; while initializing only the spinner
shows. -/
theorem c9_banner_iff_disconnected_or_error (s : BackendStatus) :
    ((renderApp false s).banner = true ↔
      (s = BackendStatus.disconnected ∨ s = BackendStatus.error)) ∧
    (renderApp false s).mainLayout = true ∧
    (renderApp false s).spinner = false ∧
    (renderApp true s).spinner = true ∧
    (renderApp true s).banner = false := by
  cases s <;> decide

/-- Witness for C9 at the `disconnected` status. -/
theorem c9_witness :
    ((renderApp false BackendStatus.disconnected).banner = true ↔
      (BackendStatus.disconnected = BackendStatus.disconnected ∨
       BackendStatus.disconnected = BackendStatus.error)) ∧
    (renderApp false BackendStatus.disconnected).mainLayout = true ∧
    (renderApp false BackendStatus.disconnected).spinner = false ∧
    (renderApp true BackendStatus.disconnected).spinner = true ∧
    (renderApp true BackendStatus.disconnected).banner = false :=
  c9_banner_iff_disconnected_or_error BackendStatus.disconnected

/-- C10: the effect cleanup clears exactly the poll interval - not the
deadline timer - and `setterCalls` is defined independently of any
teardown time; hence when teardown happens at `T` strictly before
readiness, some setter call (the pending deadline callback or the init
sequence's `finally` block, both left uncancelled) still writes `false`
strictly after `T`. -/
theorem c10_cleanup_spares_deadline (e : RunEnv) (T : Nat)
    (h : T < readyTime e) :
    effectCleanup = [TimerId.pollInterval] ∧
    TimerId.forceShowUI ∉ effectCleanup ∧
    ∃ c ∈ setterCalls e, T < c.1 ∧ c.2 = false := by
  refine ⟨rfl, by decide, ?_⟩
  obtain ⟨c, hc, hceq⟩ := readyTime_mem e
  exact ⟨c, hc, by omega, setterCalls_sets_false e c hc⟩

/-- Witness for C10: teardown at 100 ms in the hanging run, where
readiness only arrives at the 3000 ms deadline. -/
theorem c10_witness :
    (100 : Nat) < readyTime envHang ∧
    (effectCleanup = [TimerId.pollInterval] ∧
     TimerId.forceShowUI ∉ effectCleanup ∧
     ∃ c ∈ setterCalls envHang, 100 < c.1 ∧ c.2 = false) :=
  ⟨by decide, c10_cleanup_spares_deadline envHang 100 (by decide)⟩

end NexusDesktop
